import Mathlib

/-!
Verification of the chat session orchestrator (`useAgentChat` and the API
client in `src/frontend/src/lib/api.ts`) of the conversational shopping
frontend.

The TypeScript code is shallowly embedded: the React hook's state
(`AgentState`) becomes a structure, each `setState` call becomes a pure
state-transforming function, and the asynchronous turns (`sendText`,
`uploadAndSearch`) are split at their `await` points into a synchronous
"begin" phase and a "settle" phase parameterised by the network outcome.
React's `useCallback` memoisation, which determines which state snapshot a
callback closure reads, is modelled explicitly (`useCallbackStep`,
`renderStep`).
-/

namespace PalonaChat

/-- Message role, `"user" | "assistant"` in `UiMessage`. -/
inductive Role where
  | user
  | assistant
deriving DecidableEq, Repr

/-- `UiMessage = { id: string; role: "user" | "assistant"; content: string }`. -/
structure UiMessage where
  id : String
  role : Role
  content : String
deriving DecidableEq, Repr

/-- `ProductCard`: catalog item projection; all fields but `id` are
optional/nullable (`T | null` and absence both collapse to `Option`). -/
structure ProductCard where
  id : String
  title : Option String := none
  brand : Option String := none
  image_url : Option String := none
  price_cents : Option Int := none
  currency : Option String := none
  in_stock : Option Bool := none
  url : Option String := none
  badges : Option (List String) := none
deriving DecidableEq, Repr

/-- `ProductDetail = ProductCard & {...}` — extra detail fields. The
`attributes: Record<string, unknown>` map is modelled as a key–value list
with values rendered opaquely as strings; `rating: number` as a rational. -/
structure ProductDetail extends ProductCard where
  category : Option (List String) := none
  description : Option String := none
  color : Option (List String) := none
  material : Option (List String) := none
  size : Option (List String) := none
  gender : Option String := none
  attributes : Option (List (String × String)) := none
  rating : Option Rat := none
  keywords : Option (List String) := none

/-- The four intents of `AgentChatResponse.intent`. -/
inductive Intent where
  | chitchat
  | text_recommendation
  | image_search
  | catalog_qna
deriving DecidableEq, Repr

/-- `AgentChatResponse = { intent; answer: string; products?; refinements? }`. -/
structure AgentChatResponse where
  intent : Intent
  answer : String
  products : Option (List ProductCard) := none
  refinements : Option (List String) := none
deriving DecidableEq, Repr

/-- `UploadResponse = { upload_id: string; url: string }`. -/
structure UploadResponse where
  upload_id : String
  url : String
deriving DecidableEq, Repr

/-- One entry of the outbound `context` array: the projection
`{ role: m.role, content: m.content }` of a `UiMessage`. -/
structure CtxEntry where
  role : Role
  content : String
deriving DecidableEq, Repr

/-- `AgentChatRequest = { message: string; context?: [...] }`. Both call
sites (`sendText` and `uploadAndSearch`) always supply `context`, so it is
modelled as present. -/
structure AgentChatRequest where
  message : String
  context : List CtxEntry
deriving DecidableEq, Repr

/-- TypeScript `a || b` on strings: the fallback is used exactly when the
first operand is the empty string (the only falsy string). Used for
`err.message || "Something went wrong"`, `err.message || "Upload failed"`
and `text || "Request failed: ..."`. -/
def orFallback (m fallback : String) : String :=
  if m = "" then fallback else m

/-- The observable part of a `fetch` round-trip as consumed by `http`:
the HTTP status, the result of `res.text()` (`none` models the body read
itself rejecting, which the code maps to `""` via `.catch(() => "")`), and
the result of `res.json()` (which may itself reject). -/
structure FetchResult (α : Type) where
  status : Nat
  bodyText : Option String
  json : Except String α

/-- `Response.ok` per the fetch specification: status in the 2xx range. -/
def resOk (status : Nat) : Bool :=
  200 ≤ status && status ≤ 299

/-- `http<T>`: on a non-2xx response, throw an `Error` whose message is the
body text, falling back to a generic string carrying the status when the
body text is empty; on a 2xx response, return the parsed JSON body. -/
def http {α : Type} (r : FetchResult α) : Except String α :=
  if resOk r.status then r.json
  else
    Except.error (orFallback (r.bodyText.getD "") ("Request failed: " ++ toString r.status))

/-- `ApiClient.chat` delegates to `http` for `POST /api/agent/chat`. -/
def ApiClient.chat (r : FetchResult AgentChatResponse) : Except String AgentChatResponse :=
  http r

/-- `ApiClient.uploadImage` delegates to `http` for `POST /api/uploads`. -/
def ApiClient.uploadImage (r : FetchResult UploadResponse) : Except String UploadResponse :=
  http r

/-- `ApiClient.getProduct` delegates to `http` for `GET /products/:id`. -/
def ApiClient.getProduct (r : FetchResult ProductDetail) : Except String ProductDetail :=
  http r

/-- `AgentState`: the hook's session state. -/
structure AgentState where
  messages : List UiMessage
  products : List ProductCard
  refinements : List String
  isLoading : Bool
  lastUploadId : Option String := none
deriving DecidableEq, Repr

/-- The seed assistant welcome text. -/
def welcomeText : String :=
  "Hi! I can help you find products. What are you looking for today?"

/-- The initial state passed to `useState` in `useAgentChat`. -/
def initialState : AgentState :=
  { messages := [{ id := "m-welcome", role := Role.assistant, content := welcomeText }]
    products := []
    refinements := ["recommendations", "image search", "product details"]
    isLoading := false
    lastUploadId := none }

/-- `appendMessage`: `setState((prev) => ({ ...prev, messages: [...prev.messages, msg] }))`. -/
def appendMessage (s : AgentState) (msg : UiMessage) : AgentState :=
  { s with messages := s.messages ++ [msg] }

/-- JavaScript `l.slice(-n)`: the trailing `min n l.length` elements. -/
def sliceLast (n : Nat) (l : List α) : List α :=
  l.drop (l.length - n)

/-- The context construction shared by `sendText` and `uploadAndSearch`:
`messages.slice(-10).map((m) => ({ role: m.role, content: m.content }))`. -/
def toCtx (ms : List UiMessage) : List CtxEntry :=
  (sliceLast 10 ms).map (fun m => { role := m.role, content := m.content })

/-- The settlement of an awaited chat call: the server's parsed response, or
an error (a non-2xx rejection, a network failure, or the `AbortError` raised
when the request's controller is aborted) carrying `err.message`. -/
inductive ChatOutcome where
  | success (resp : AgentChatResponse)
  | failure (errMessage : String)
deriving DecidableEq, Repr

/-- `handleAgentResponse`: append one assistant message with the response's
`answer`, then set `products` to `resp.products ?? []` and `refinements` to
`resp.refinements ?? prev.refinements`. `aid` stands for the generated
`crypto.randomUUID()`. -/
def handleAgentResponse (s : AgentState) (resp : AgentChatResponse) (aid : String) : AgentState :=
  let s1 := appendMessage s { id := aid, role := Role.assistant, content := resp.answer }
  { s1 with
    products := resp.products.getD []
    refinements := resp.refinements.getD s1.refinements }

/-- The synchronous phase of `sendText(text)` up to the `await`: append the
user message (id `uid` models `crypto.randomUUID()`), set `isLoading` to
`true`. (The abort of the previous controller and the creation of a new one
touch only `abortRef`, not the state.) -/
def sendTextBegin (s : AgentState) (text uid : String) : AgentState :=
  { appendMessage s { id := uid, role := Role.user, content := text } with isLoading := true }

/-- The outbound request built by `sendText`: `{ message: text, context }`
where `context` is computed from `state.messages` — the `state` captured by
the `sendText` closure (`snap`), not the live state. -/
def sendTextRequest (snap : AgentState) (text : String) : AgentChatRequest :=
  { message := text, context := toCtx snap.messages }

/-- The settlement of a `sendText` turn, applied to the live state at the
time the continuation runs: `try` success feeds `handleAgentResponse`; the
`catch` branch appends an assistant message with
`err.message || "Something went wrong"`; the `finally` clears `isLoading`. -/
def sendTextSettle (s : AgentState) (o : ChatOutcome) (aid : String) : AgentState :=
  let s1 :=
    match o with
    | ChatOutcome.success resp => handleAgentResponse s resp aid
    | ChatOutcome.failure m =>
        appendMessage s { id := aid, role := Role.assistant
                          content := orFallback m "Something went wrong" }
  { s1 with isLoading := false }

/-- A whole `sendText` turn that runs to settlement uninterleaved: the
resulting state and the request that was sent. -/
def sendTextRun (snap s : AgentState) (text uid aid : String) (o : ChatOutcome) :
    AgentState × AgentChatRequest :=
  (sendTextSettle (sendTextBegin s text uid) o aid, sendTextRequest snap text)

/-- The synchronous phase of `uploadAndSearch` up to the first `await`: set
`isLoading` true (abort bookkeeping touches only `abortRef`). -/
def uploadBegin (s : AgentState) : AgentState :=
  { s with isLoading := true }

/-- After `await ApiClient.uploadImage` resolves: record `lastUploadId` and
append the user marker message `image:<uploadId>`. -/
def uploadRecord (s : AgentState) (upid uid : String) : AgentState :=
  appendMessage { s with lastUploadId := some upid }
    { id := uid, role := Role.user, content := "image:" ++ upid }

/-- The settlement of the `uploadAndSearch` `try` block: success feeds
`handleAgentResponse`; the shared `catch` appends an assistant message with
`err.message || "Upload failed"`; the `finally` clears `isLoading`. -/
def uploadSettle (s : AgentState) (o : ChatOutcome) (aid : String) : AgentState :=
  let s1 :=
    match o with
    | ChatOutcome.success resp => handleAgentResponse s resp aid
    | ChatOutcome.failure m =>
        appendMessage s { id := aid, role := Role.assistant
                          content := orFallback m "Upload failed" }
  { s1 with isLoading := false }

/-- A whole `uploadAndSearch` run, uninterleaved: if the upload rejects with
message `m`, control jumps to the shared `catch` (no `lastUploadId`, no
marker, no chat request); if it resolves, `lastUploadId` and the marker are
recorded, the chat request is sent with context from the closure snapshot
`snap`, and its outcome settles through the same `catch`/`finally`. Returns
the final state and the chat request if one was dispatched. -/
def uploadAndSearchRun (snap s : AgentState) (upOutcome : Except String UploadResponse)
    (chatOutcome : ChatOutcome) (uid aid : String) :
    AgentState × Option AgentChatRequest :=
  let s0 := uploadBegin s
  match upOutcome with
  | Except.error m => (uploadSettle s0 (ChatOutcome.failure m) aid, none)
  | Except.ok up =>
      let s1 := uploadRecord s0 up.upload_id uid
      (uploadSettle s1 chatOutcome aid,
       some { message := "image:" ++ up.upload_id, context := toCtx snap.messages })

/-- `refineWith(chip)` is `void sendText(chip)`: the chip path delegates to
the typed path. -/
def refineWithRun (snap s : AgentState) (chip uid aid : String) (o : ChatOutcome) :
    AgentState × AgentChatRequest :=
  sendTextRun snap s chip uid aid o

/-- The request a chip dispatch sends, via the delegation to `sendText`. -/
def refineWithRequest (snap : AgentState) (chip : String) : AgentChatRequest :=
  sendTextRequest snap chip

/-- `cancel`: aborts the in-flight controller and clears `abortRef`; it
performs no state update. -/
def cancel (s : AgentState) : AgentState :=
  s

/-- A memoised `useCallback` closure: the render index at which the closure
was created and the state snapshot it captured then. -/
structure Memo where
  createdAt : Nat
  snap : AgentState

/-- React `useCallback` at one render: a fresh closure capturing the current
render's state replaces the memo exactly when the dependency array changed;
otherwise the previously memoised closure (and its captured snapshot) is
returned unchanged. -/
def useCallbackStep (depsChanged : Bool) (renderIdx : Nat) (cur : AgentState) (old : Memo) :
    Memo :=
  if depsChanged then { createdAt := renderIdx, snap := cur } else old

/-- The hook's memoised closures that read `state` directly:
`appendMessage` (deps `[]`), `sendText` (deps `[appendMessage]`) and
`uploadAndSearch` (deps `[appendMessage]`). -/
structure HookMemos where
  appendMessageMemo : Memo
  sendTextMemo : Memo
  uploadMemo : Memo

/-- The closures created on the first render capture `initialState`. -/
def initMemos : HookMemos :=
  { appendMessageMemo := { createdAt := 0, snap := initialState }
    sendTextMemo := { createdAt := 0, snap := initialState }
    uploadMemo := { createdAt := 0, snap := initialState } }

/-- One re-render at index `i` with current state `cur`: `appendMessage` has
dependency array `[]`, which never changes; `sendText` and `uploadAndSearch`
have dependency array `[appendMessage]`, which changed exactly when the
`appendMessage` memo was replaced this render. -/
def renderStep (i : Nat) (cur : AgentState) (h : HookMemos) : HookMemos :=
  let am := useCallbackStep false i cur h.appendMessageMemo
  let amChanged := am.createdAt != h.appendMessageMemo.createdAt
  { appendMessageMemo := am
    sendTextMemo := useCallbackStep amChanged i cur h.sendTextMemo
    uploadMemo := useCallbackStep amChanged i cur h.uploadMemo }

/-- The memos after an arbitrary sequence of re-renders (each with its render
index and the state React passes to that render). -/
def renderTrace (rs : List (Nat × AgentState)) : HookMemos :=
  rs.foldl (fun h p => renderStep p.1 p.2 h) initMemos

/-- One atomic state-store transition performed by the session store's
public operations: every `setState` the source executes is one of these
(`refineWith` delegates to `sendText`, so `sendBegin`/`sendSettle` cover the
chip path too; `cancel` performs no state update). -/
inductive OpStep : AgentState → AgentState → Prop where
  | sendBegin (s : AgentState) (text uid : String) : OpStep s (sendTextBegin s text uid)
  | sendSettle (s : AgentState) (o : ChatOutcome) (aid : String) :
      OpStep s (sendTextSettle s o aid)
  | upBegin (s : AgentState) : OpStep s (uploadBegin s)
  | upRecord (s : AgentState) (upid uid : String) : OpStep s (uploadRecord s upid uid)
  | upSettle (s : AgentState) (o : ChatOutcome) (aid : String) :
      OpStep s (uploadSettle s o aid)
  | cancelStep (s : AgentState) : OpStep s (cancel s)

/-- Turn A dispatched from the fresh session: `sendText("first")`. -/
def stateAfterA : AgentState :=
  sendTextBegin initialState "first" "u1"

/-- Turn B dispatched while A is still pending: `sendText("second")`
supersedes A (B's begin phase aborts A's controller). -/
def stateAfterB : AgentState :=
  sendTextBegin stateAfterA "second" "u2"

/-- The superseded turn A then settles: its aborted `fetch` rejects with an
`AbortError`, which A's `catch`/`finally` process against the live state.
Turn B has not settled at this point. -/
def stateAfterAbortedASettles : AgentState :=
  sendTextSettle stateAfterB (ChatOutcome.failure "The user aborted a request.") "a-err"

/-- A session after five completed text turns: 1 welcome + 5 × (user +
assistant) = 11 messages, which is more than the context window of 10. -/
def grownState : AgentState :=
  (List.range 5).foldl
    (fun s _ =>
      sendTextSettle (sendTextBegin s "q" "u")
        (ChatOutcome.success { intent := Intent.chitchat, answer := "a" }) "m")
    initialState

/-- The session at the dispatch point of a sixth turn: the turn's own user
message has been appended, so 12 messages are present. -/
def grownDispatch : AgentState :=
  sendTextBegin grownState "next query" "u99"

/-- A concrete failed fetch: 404 with body text "Not found". -/
def resp404 : FetchResult Nat :=
  { status := 404, bodyText := some "Not found", json := Except.error "x" }

/-- A concrete successful fetch: 200 whose body parses to `7`. -/
def resp200 : FetchResult Nat :=
  { status := 200, bodyText := some "", json := Except.ok 7 }

/-- A re-render never replaces any of the three memoised closures: the
dependency array of `appendMessage` is `[]`, hence unchanged, hence the
`[appendMessage]` arrays of `sendText` and `uploadAndSearch` are unchanged
too. -/
theorem renderStep_fixed (i : Nat) (cur : AgentState) (h : HookMemos) :
    renderStep i cur h = h := by
  simp [renderStep, useCallbackStep]

/-- After any sequence of re-renders the memos are still the first render's,
so the `state` read inside `sendText` is forever `initialState`. -/
theorem renderTrace_sendText_snap (rs : List (Nat × AgentState)) :
    (renderTrace rs).sendTextMemo.snap = initialState := by
  suffices h : ∀ m : HookMemos, rs.foldl (fun h p => renderStep p.1 p.2 h) m = m by
    show (rs.foldl (fun h p => renderStep p.1 p.2 h) initMemos).sendTextMemo.snap = initialState
    rw [h initMemos]
    rfl
  intro m
  induction rs generalizing m with
  | nil => rfl
  | cons p rest ih => simp [List.foldl_cons, renderStep_fixed, ih]

/-- C1: the claim fails on the code. At the failing input — turn A
(`sendText "first"`) superseded by turn B (`sendText "second"`) before A
settles — A's eventual settlement (the `AbortError` rejection of its aborted
fetch) runs A's `catch` branch against the live state and appends a visible
assistant error message, mutating `messages` while B is still pending. -/
theorem superseded_turn_settlement_mutates_messages :
    stateAfterAbortedASettles.messages =
      stateAfterB.messages ++
        [{ id := "a-err", role := Role.assistant, content := "The user aborted a request." }] ∧
    stateAfterAbortedASettles.messages ≠ stateAfterB.messages := by
  constructor
  · rfl
  · decide

/-- C2: the claim fails on the code. `sendText` is memoised by `useCallback`
with dependency array `[appendMessage]` (and `appendMessage` with `[]`), so
for every render history the closure reads the initial render's state: the
outbound `context` of any dispatch is the single welcome pair, even when the
session holds 11 messages (12 at dispatch time, whose trailing-10 projection
has 10 entries and differs from what is sent). -/
theorem context_ignores_session_history :
    grownState.messages.length = 11 ∧
    (∀ rs : List (Nat × AgentState),
      (sendTextRequest (renderTrace rs).sendTextMemo.snap "next query").context =
        [{ role := Role.assistant, content := welcomeText }]) ∧
    (toCtx grownDispatch.messages).length = 10 ∧
    (sendTextRequest (renderTrace []).sendTextMemo.snap "next query").context ≠
      toCtx grownDispatch.messages := by
  refine ⟨by decide, ?_, by decide, by decide⟩
  intro rs
  rw [sendTextRequest, renderTrace_sendText_snap]
  decide

/-- C3: the claim fails on the code. In the same failing trace as C1, the
superseded turn A's `finally` block sets `isLoading` to `false` although
only A — not the newest turn B, still in flight — has settled. -/
theorem isLoading_cleared_by_superseded_settlement :
    stateAfterB.isLoading = true ∧ stateAfterAbortedASettles.isLoading = false := by
  decide

/-- C4: after reducing any successful response, `products` equals
`resp.products` when present and is empty when absent, regardless of the
previous `products`. -/
theorem products_replaced_wholesale (s : AgentState) (resp : AgentChatResponse)
    (aid : String) :
    (resp.products = none → (handleAgentResponse s resp aid).products = []) ∧
    ∀ ps, resp.products = some ps → (handleAgentResponse s resp aid).products = ps := by
  constructor
  · intro h
    simp [handleAgentResponse, appendMessage, h]
  · intro ps h
    simp [handleAgentResponse, appendMessage, h]

/-- Witness for C4 at a concrete input with non-empty prior products. -/
theorem products_replaced_wholesale_witness :
    (handleAgentResponse { initialState with products := [{ id := "p9" }] }
        { intent := Intent.chitchat, answer := "hello", refinements := some ["x"] }
        "a1").products = [] :=
  (products_replaced_wholesale { initialState with products := [{ id := "p9" }] }
      { intent := Intent.chitchat, answer := "hello", refinements := some ["x"] } "a1").1 rfl

/-- C5: after reducing any successful response, `refinements` equals
`resp.refinements` when present, and is exactly the pre-reduction value when
absent. -/
theorem refinements_persist_when_omitted (s : AgentState) (resp : AgentChatResponse)
    (aid : String) :
    (resp.refinements = none →
      (handleAgentResponse s resp aid).refinements = s.refinements) ∧
    ∀ rs, resp.refinements = some rs → (handleAgentResponse s resp aid).refinements = rs := by
  constructor
  · intro h
    simp [handleAgentResponse, appendMessage, h]
  · intro rs h
    simp [handleAgentResponse, appendMessage, h]

/-- Witness for C5 at a concrete input: a response omitting `refinements`
leaves the default chips untouched. -/
theorem refinements_persist_when_omitted_witness :
    (handleAgentResponse initialState
        { intent := Intent.chitchat, answer := "hi", products := some [{ id := "p1" }] }
        "a2").refinements = initialState.refinements :=
  (refinements_persist_when_omitted initialState
      { intent := Intent.chitchat, answer := "hi", products := some [{ id := "p1" }] } "a2").1 rfl

/-- Every atomic session-store transition only ever appends to `messages`. -/
theorem opStep_messages_extend {s s' : AgentState} (h : OpStep s s') :
    ∃ t, s'.messages = s.messages ++ t := by
  cases h with
  | sendBegin text uid =>
      exact ⟨[{ id := uid, role := Role.user, content := text }], rfl⟩
  | sendSettle o aid =>
      cases o with
      | success resp =>
          exact ⟨[{ id := aid, role := Role.assistant, content := resp.answer }], rfl⟩
      | failure m =>
          exact ⟨[{ id := aid, role := Role.assistant
                    content := orFallback m "Something went wrong" }], rfl⟩
  | upBegin => exact ⟨[], by simp [uploadBegin]⟩
  | upRecord upid uid =>
      exact ⟨[{ id := uid, role := Role.user, content := "image:" ++ upid }], rfl⟩
  | upSettle o aid =>
      cases o with
      | success resp =>
          exact ⟨[{ id := aid, role := Role.assistant, content := resp.answer }], rfl⟩
      | failure m =>
          exact ⟨[{ id := aid, role := Role.assistant
                    content := orFallback m "Upload failed" }], rfl⟩
  | cancelStep => exact ⟨[], by simp [cancel]⟩

/-- C6: along any sequence of session-store operations and settlements,
`messages.length` is non-decreasing and every earlier message list is a
prefix of every later one — no prior message is reordered, altered or
removed. -/
theorem messages_append_only (s s' : AgentState)
    (h : Relation.ReflTransGen OpStep s s') :
    s.messages.length ≤ s'.messages.length ∧ ∃ t, s'.messages = s.messages ++ t := by
  induction h with
  | refl => exact ⟨le_rfl, [], by simp⟩
  | tail _ hbc ih =>
      obtain ⟨hlen, t, ht⟩ := ih
      obtain ⟨t2, ht2⟩ := opStep_messages_extend hbc
      refine ⟨?_, t ++ t2, by simp [ht2, ht]⟩
      calc s.messages.length ≤ _ := hlen
        _ ≤ _ := by simp [ht2]

/-- Witness for C6 at a concrete one-step trace from the initial state. -/
theorem messages_append_only_witness :
    initialState.messages.length ≤ (sendTextBegin initialState "hi" "u1").messages.length ∧
    ∃ t, (sendTextBegin initialState "hi" "u1").messages = initialState.messages ++ t :=
  messages_append_only initialState (sendTextBegin initialState "hi" "u1")
    (Relation.ReflTransGen.single (OpStep.sendBegin initialState "hi" "u1"))

/-- C7: for every chip label, the chip dispatch (`refineWith`) and the typed
dispatch (`sendText`) from the same session state and closure snapshot send
the identical request and induce the identical state transition — the two
paths are the same function. -/
theorem chip_dispatch_equals_typed_dispatch (snap s : AgentState) (chip uid aid : String)
    (o : ChatOutcome) :
    refineWithRun snap s chip uid aid o = sendTextRun snap s chip uid aid o ∧
    refineWithRequest snap chip = sendTextRequest snap chip :=
  ⟨rfl, rfl⟩

/-- C8: if the upload rejects with message `m`, no chat request is
dispatched, `lastUploadId` is unchanged, no marker message is synthesized,
and exactly one assistant message is appended whose text falls back to
"Upload failed" when `m` is empty; if the upload resolves and the chained
chat dispatch fails with `m2`, the recorded `lastUploadId` and the
`image:<uploadId>` user marker remain in the session. -/
theorem upload_failure_short_circuits (snap s : AgentState) (m m2 uid aid : String)
    (o : ChatOutcome) (up : UploadResponse) :
    (uploadAndSearchRun snap s (Except.error m) o uid aid).2 = none ∧
    (uploadAndSearchRun snap s (Except.error m) o uid aid).1.lastUploadId = s.lastUploadId ∧
    (uploadAndSearchRun snap s (Except.error m) o uid aid).1.messages =
      s.messages ++
        [{ id := aid, role := Role.assistant
           content := if m = "" then "Upload failed" else m }] ∧
    (uploadAndSearchRun snap s (Except.ok up) (ChatOutcome.failure m2) uid aid).1.lastUploadId =
      some up.upload_id ∧
    (uploadAndSearchRun snap s (Except.ok up) (ChatOutcome.failure m2) uid aid).1.messages =
      s.messages ++
        [{ id := uid, role := Role.user, content := "image:" ++ up.upload_id },
         { id := aid, role := Role.assistant
           content := if m2 = "" then "Upload failed" else m2 }] := by
  refine ⟨rfl, rfl, ?_, rfl, ?_⟩
  · simp [uploadAndSearchRun, uploadSettle, uploadBegin, appendMessage, orFallback]
  · simp [uploadAndSearchRun, uploadSettle, uploadBegin, uploadRecord, appendMessage, orFallback]

/-- C9: every client call goes through `http`; a non-2xx response rejects,
surfacing the body text when non-empty and otherwise a generic message
carrying the status, while a 2xx response yields the parsed JSON body. -/
theorem http_failure_contract {α : Type} (r : FetchResult α) :
    (resOk r.status = true → http r = r.json) ∧
    (resOk r.status = false →
      (∃ m, http r = Except.error m) ∧
      (r.bodyText.getD "" ≠ "" → http r = Except.error (r.bodyText.getD "")) ∧
      (r.bodyText.getD "" = "" →
        http r = Except.error ("Request failed: " ++ toString r.status))) := by
  constructor
  · intro h
    simp [http, h]
  · intro h
    refine ⟨⟨orFallback (r.bodyText.getD "") ("Request failed: " ++ toString r.status),
        by simp [http, h]⟩, ?_, ?_⟩
    · intro hbody
      simp [http, h, orFallback, hbody]
    · intro hbody
      simp [http, h, orFallback, hbody]

/-- Witness for C9 at concrete responses: a 404 with body "Not found"
rejects with that text, and a 200 yields the parsed body. -/
theorem http_failure_contract_witness :
    http resp404 = Except.error "Not found" ∧ http resp200 = Except.ok 7 :=
  ⟨((http_failure_contract resp404).2 (by decide)).2.1 (by decide),
   (http_failure_contract resp200).1 (by decide)⟩

/-- C10: the fresh session starts with exactly the single welcome assistant
message `m-welcome`, empty products, the three default refinement chips,
`isLoading` false and no `lastUploadId`; and the refinement-persistence rule
keeps those chips whenever a response omits `refinements`. -/
theorem initial_session_state :
    initialState.messages =
      [{ id := "m-welcome", role := Role.assistant, content := welcomeText }] ∧
    initialState.products = [] ∧
    initialState.refinements = ["recommendations", "image search", "product details"] ∧
    initialState.refinements ≠ [] ∧
    initialState.isLoading = false ∧
    initialState.lastUploadId = none ∧
    ∀ (resp : AgentChatResponse) (aid : String), resp.refinements = none →
      (handleAgentResponse initialState resp aid).refinements = initialState.refinements := by
  refine ⟨rfl, rfl, rfl, by decide, rfl, rfl, ?_⟩
  intro resp aid h
  simp [handleAgentResponse, appendMessage, h]

/-- Witness for C10 at a concrete response omitting `refinements`. -/
theorem initial_session_state_witness :
    (handleAgentResponse initialState { intent := Intent.chitchat, answer := "ok" }
        "a3").refinements = initialState.refinements :=
  initial_session_state.2.2.2.2.2.2 { intent := Intent.chitchat, answer := "ok" } "a3" rfl

end PalonaChat
